import Mathlib

/-!
Verification of the dispatch and session-resilience core of the
`mcp-abap-abap-adt-api` server (`src/index.ts`).

The development shallowly embeds the `AbapAdtServer` request-handling code:

* `serializeResult`, `handleError`, `isSessionExpired`, `reconnect` and the
  `CallToolRequestSchema` handler (the two-iteration retry loop) from
  `src/index.ts` become Lean functions;
* the external collaborators (the ~25 handler classes, the `ADTClient`, the
  `isCsrfError` classifier of the `abap-adt-api` package and the MCP SDK's
  `McpError`) are modelled by an outcome oracle (`Behavior`) and by explicit
  data (`Thrown`), since only their observable outcomes reach this code;
* `JSON.stringify` with the bigint replacer is modelled by a JSON value tree,
  a uniform value-transform hook (`mapTree`/`jsReplacer`) and a serializer
  that fails exactly where `JSON.stringify` throws (on a surviving bigint).

Every execution of the handler is instrumented with a `Trace` recording how
often `dispatchTool`, the providers, the auth handler, the expiry predicate
and `reconnect` were invoked, so that claims about "exactly one reconnect"
or "never retried" are provable statements about the embedding.
-/

/-- Lower-casing of a string, character by character; models
`String.prototype.toLowerCase()` as used on ASCII error messages in
`isSessionExpired` (`src/index.ts` line 152). -/
def strLower (s : String) : String := String.mk (s.data.map Char.toLower)

/-- Scans for `pat` as a contiguous run of characters. Helper for
`jsIncludes`. -/
def occursIn (pat : List Char) : List Char → Bool
  | [] => pat.isEmpty
  | c :: cs => if pat.isPrefixOf (c :: cs) then true else occursIn pat cs

/-- Models `String.prototype.includes(pat)`: `pat` occurs as a substring of
`s` (`src/index.ts` line 153). -/
def jsIncludes (s pat : String) : Bool := occursIn pat.data s.data

/-- A JavaScript value as far as `JSON.stringify` is concerned: the `result`
values returned by the handlers. `bigint` is kept distinct from `num`
because `JSON.stringify` throws on bigint values unless a replacer converts
them. -/
inductive JsValue where
  | null
  | bool (b : Bool)
  | num (n : Int)
  | str (s : String)
  | bigint (n : Int)
  | arr (elems : List JsValue)
  | obj (fields : List (String × JsValue))

/-- JSON escaping of one character (quote and backslash; the error messages
and numeric strings in this development contain no control characters). -/
def escapeChar (c : Char) : String :=
  if c = '\\' then "\\\\"
  else if c = '"' then "\\\""
  else String.singleton c

/-- JSON escaping of a string body. -/
def jsonEscape (s : String) : String := String.join (s.data.map escapeChar)

/-- A JSON string literal: quoted, escaped text. -/
def jsonQuote (s : String) : String := "\"" ++ jsonEscape s ++ "\""

/-- Concatenation with a separator, as `Array.prototype.join` produces
inside `JSON.stringify`. -/
def joinSep (sep : String) : List String → String
  | [] => ""
  | [x] => x
  | x :: xs => x ++ sep ++ joinSep sep xs

/-- The value-transform hook of `serializeResult` (`src/index.ts` lines
134-136): `(key, value) => typeof value === 'bigint' ? value.toString() :
value`. It rewrites bigint values to their decimal string form and leaves
every other value unchanged. -/
def jsReplacer : JsValue → JsValue
  | JsValue.bigint n => JsValue.str (toString n)
  | v => v

mutual

/-- Applies a replacer hook uniformly at every node of a value tree, as
`JSON.stringify(value, replacer)` does during its traversal. -/
def mapTree (rep : JsValue → JsValue) : JsValue → JsValue
  | JsValue.null => rep JsValue.null
  | JsValue.bool b => rep (JsValue.bool b)
  | JsValue.num n => rep (JsValue.num n)
  | JsValue.str s => rep (JsValue.str s)
  | JsValue.bigint n => rep (JsValue.bigint n)
  | JsValue.arr xs => rep (JsValue.arr (mapTreeList rep xs))
  | JsValue.obj fs => rep (JsValue.obj (mapTreeFields rep fs))

/-- `mapTree` over the elements of an array value. -/
def mapTreeList (rep : JsValue → JsValue) : List JsValue → List JsValue
  | [] => []
  | x :: xs => mapTree rep x :: mapTreeList rep xs

/-- `mapTree` over the field values of an object value. -/
def mapTreeFields (rep : JsValue → JsValue) :
    List (String × JsValue) → List (String × JsValue)
  | [] => []
  | (k, v) :: fs => (k, mapTree rep v) :: mapTreeFields rep fs

end

mutual

/-- Plain JSON serialization of an (already replaced) value.  Returns `none`
exactly where `JSON.stringify` throws: on a bigint value that no replacer
has converted. -/
def stringifyPlain : JsValue → Option String
  | JsValue.null => some "null"
  | JsValue.bool b => some (if b then "true" else "false")
  | JsValue.num n => some (toString n)
  | JsValue.str s => some (jsonQuote s)
  | JsValue.bigint _ => none
  | JsValue.arr xs =>
      match stringifyElems xs with
      | some ss => some ("[" ++ joinSep "," ss ++ "]")
      | none => none
  | JsValue.obj fs =>
      match stringifyFieldList fs with
      | some ss => some ("\x7b" ++ joinSep "," ss ++ "\x7d")
      | none => none

/-- Serialization of the elements of an array value. -/
def stringifyElems : List JsValue → Option (List String)
  | [] => some []
  | x :: xs =>
      match stringifyPlain x, stringifyElems xs with
      | some s, some ss => some (s :: ss)
      | _, _ => none

/-- Serialization of the `"key":value` entries of an object value. -/
def stringifyFieldList : List (String × JsValue) → Option (List String)
  | [] => some []
  | (k, v) :: fs =>
      match stringifyPlain v, stringifyFieldList fs with
      | some s, some ss => some ((jsonQuote k ++ ":" ++ s) :: ss)
      | _, _ => none

end

/-- `JSON.stringify(value, replacer)`: the replacer hook is applied
uniformly at every node, then the tree is serialized. -/
def jsonStringify (rep : JsValue → JsValue) (v : JsValue) : Option String :=
  stringifyPlain (mapTree rep v)

/-- The numeric code of the MCP SDK's `ErrorCode.InternalError`
(JSON-RPC internal error). -/
def ErrorCode.internalError : Int := -32603

/-- The numeric code of the MCP SDK's `ErrorCode.MethodNotFound`
(JSON-RPC method not found). -/
def ErrorCode.methodNotFound : Int := -32601

/-- A value thrown by a provider, the ADT client or the dispatch itself.
JavaScript lets any value be thrown, and the code distinguishes three
shapes: a structured `McpError` (which is an `Error` carrying a numeric
`code`), any other `Error` instance, and a non-`Error` value whose
`String(value)` form is recorded.  Each constructor also records the
verdict of the external `isCsrfError` classifier of `abap-adt-api` on the
value, since that classifier inspects protocol-level structure this
embedding does not otherwise carry. -/
inductive Thrown where
  | mcp (code : Int) (message : String) (csrf : Bool)
  | err (message : String) (csrf : Bool)
  | raw (stringForm : String) (csrf : Bool)

/-- The external `isCsrfError` classifier's verdict on a thrown value. -/
def isCsrfError : Thrown → Bool
  | Thrown.mcp _ _ csrf => csrf
  | Thrown.err _ csrf => csrf
  | Thrown.raw _ csrf => csrf

/-- `error.message`, available exactly when the thrown value is an `Error`
instance (`error instanceof Error`). -/
def errMessage : Thrown → Option String
  | Thrown.mcp _ message _ => some message
  | Thrown.err message _ => some message
  | Thrown.raw _ _ => none

/-- The message test of `isSessionExpired` (`src/index.ts` line 153):
the lower-cased message contains `'session timed out'` or `'csrf token'`. -/
def sessionMsgHit (message : String) : Bool :=
  jsIncludes (strLower message) "session timed out" ||
  jsIncludes (strLower message) "csrf token"

/-- `isSessionExpired` (`src/index.ts` lines 147-156): true when the
external classifier recognizes a CSRF error, or when the value is an
`Error` whose lower-cased message contains `'session timed out'` or
`'csrf token'`; false otherwise (in particular for every thrown
non-`Error` value the classifier rejects). -/
def isSessionExpired (e : Thrown) : Bool :=
  if isCsrfError e then true
  else
    match errMessage e with
    | some message => sessionMsgHit message
    | none => false

/-- The coercion at the top of `handleError` (`src/index.ts` lines
169-171): a non-`Error` thrown value becomes `new Error(String(value))`,
a fresh plain `Error` (never an `McpError`, never CSRF-classified). -/
def coerceToError : Thrown → Thrown
  | Thrown.raw stringForm _ => Thrown.err stringForm false
  | e => e

/-- A wire response envelope.  `ok text` is the success envelope
`{content: [{type: 'text', text}]}` of `serializeResult`; `errorResp`
is the error envelope of `handleError`, whose text block serializes
`{error: errorMsg, code}` and which carries `isError: true`. -/
inductive Response where
  | ok (text : String)
  | errorResp (errorMsg : String) (code : Int)
deriving DecidableEq

/-- `handleError` (`src/index.ts` lines 168-194): coerce non-`Error`
values, pass an `McpError`'s message and code through unchanged, and
flatten every other failure to a generic internal-error envelope. -/
def handleError (e : Thrown) : Response :=
  match coerceToError e with
  | Thrown.mcp code message _ => Response.errorResp message code
  | _ => Response.errorResp "Internal server error" ErrorCode.internalError

/-- `serializeResult` (`src/index.ts` lines 129-145): JSON-encode the
result with the bigint-to-string replacer hook; if encoding throws,
return the normalized internal error instead of propagating. -/
def serializeResult (result : JsValue) : Response :=
  match jsonStringify jsReplacer result with
  | some text => Response.ok text
  | none =>
      handleError
        (Thrown.mcp ErrorCode.internalError "Failed to serialize result" false)

/-- The operation names routed by the `switch` of `dispatchTool`
(`src/index.ts` lines 277-451) to a provider's `handle` entry point, in
source order.  `healthcheck` is not listed here: its `case` computes a
local value and invokes no provider. -/
def providerToolNames : List String :=
  ["transportInfo", "createTransport", "hasTransportConfig",
   "transportConfigurations", "getTransportConfiguration",
   "setTransportsConfig", "createTransportsConfig", "userTransports",
   "transportsByConfig", "transportDelete", "transportRelease",
   "transportSetOwner", "transportAddUser", "systemUsers",
   "transportReference",
   "lock", "unLock",
   "objectStructure", "searchObject", "findObjectPath", "objectTypes",
   "reentranceTicket",
   "classIncludes", "classComponents",
   "syntaxCheckCode", "syntaxCheckCdsUrl", "codeCompletion",
   "findDefinition", "usageReferences", "syntaxCheckTypes",
   "codeCompletionFull", "runClass", "codeCompletionElement",
   "usageReferenceSnippets", "fixProposals", "fixEdits",
   "fragmentMappings", "abapDocumentation",
   "getObjectSource", "setObjectSource",
   "deleteObject",
   "activateObjects", "activateByName", "inactiveObjects",
   "objectRegistrationInfo", "validateNewObject", "createObject",
   "nodeContents", "mainPrograms",
   "featureDetails", "collectionFeatureDetails", "findCollectionByUrl",
   "loadTypes", "adtDiscovery", "adtCoreDiscovery",
   "adtCompatibiliyGraph",
   "unitTestRun", "unitTestEvaluation", "unitTestOccurrenceMarkers",
   "createTestInclude",
   "prettyPrinterSetting", "setPrettyPrinterSetting", "prettyPrinter",
   "gitRepos", "gitExternalRepoInfo", "gitCreateRepo", "gitPullRepo",
   "gitUnlinkRepo", "stageRepo", "pushRepo", "checkRepo",
   "remoteRepoInfo", "switchRepoBranch",
   "annotationDefinitions", "ddicElement", "ddicRepositoryAccess",
   "packageSearchHelp",
   "publishServiceBinding", "unPublishServiceBinding", "bindingDetails",
   "tableContents", "runQuery",
   "feeds", "dumps",
   "debuggerListeners", "debuggerListen", "debuggerDeleteListener",
   "debuggerSetBreakpoints", "debuggerDeleteBreakpoints",
   "debuggerAttach", "debuggerSaveSettings", "debuggerStackTrace",
   "debuggerVariables", "debuggerChildVariables", "debuggerStep",
   "debuggerGoToStack", "debuggerSetVariableValue",
   "renameEvaluate", "renamePreview", "renameExecute",
   "atcCustomizing", "atcCheckVariant", "createAtcRun", "atcWorklists",
   "atcUsers", "atcExemptProposal", "atcRequestExemption",
   "isProposalMessage", "atcContactUri", "atcChangeContact",
   "tracesList", "tracesListRequests", "tracesHitList",
   "tracesDbAccess", "tracesStatements", "tracesSetParameters",
   "tracesCreateConfiguration", "tracesDeleteConfiguration",
   "tracesDelete",
   "extractMethodEvaluate", "extractMethodPreview",
   "extractMethodExecute",
   "revisions"]

/-- The session-management operation names that bypass the retry logic
(`AUTH_TOOLS`, `src/index.ts` line 242). -/
def AUTH_TOOLS : List String := ["login", "logout", "dropSession"]

/-- The outcome oracle for the external collaborators of one
`CallOperation` request: what each provider invocation, the auth handler,
`adtClient.dropSession()` and `adtClient.login()` would return or throw.
`providerOutcome name args attempt` is the outcome of the provider owning
`name` on its `attempt`-th invocation with `args` during this request;
`timestamp` is the clock reading used by the `healthcheck` case. -/
structure Behavior where
  providerOutcome : String → JsValue → Nat → Except Thrown JsValue
  authOutcome : Except Thrown JsValue
  dropOutcome : Except Thrown Unit
  loginOutcome : Except Thrown Unit
  timestamp : String

/-- The `healthcheck` case of `dispatchTool` (`src/index.ts` lines
449-451): a locally computed value, no provider involved. -/
def healthcheckResult (beh : Behavior) : JsValue :=
  JsValue.obj
    [("status", JsValue.str "healthy"),
     ("timestamp", JsValue.str beh.timestamp)]

/-- `reconnect` (`src/index.ts` lines 158-166): best-effort
`dropSession()` whose failure is swallowed (the drop outcome is read and
discarded), reset to stateful mode, then `login()`; the sequence fails
exactly when `login()` fails. -/
def reconnect (beh : Behavior) : Except Thrown Unit :=
  let _dropResultIgnored := beh.dropOutcome
  beh.loginOutcome

/-- `dispatchTool` (`src/index.ts` lines 275-457): a name owned by a
provider delegates to that provider; `healthcheck` computes a local
value; any other name throws `McpError(MethodNotFound, 'Unknown tool:
...')` before any provider is reached. -/
def dispatchTool (beh : Behavior) (name : String) (args : JsValue)
    (attempt : Nat) : Except Thrown JsValue :=
  if providerToolNames.contains name then beh.providerOutcome name args attempt
  else if name = "healthcheck" then Except.ok (healthcheckResult beh)
  else
    Except.error
      (Thrown.mcp ErrorCode.methodNotFound ("Unknown tool: " ++ name) false)

/-- How many provider `handle` invocations one `dispatchTool` call with
this name performs: one for a routed name, zero for `healthcheck` and for
unknown names. -/
def providerCallsOf (name : String) : Nat :=
  if providerToolNames.contains name then 1 else 0

/-- Instrumentation of one `CallOperation` execution: every `dispatchTool`
call with its name and arguments, the number of provider `handle`
invocations, auth-handler invocations, `isSessionExpired` evaluations and
`reconnect` invocations. -/
structure Trace where
  dispatchCalls : List (String × JsValue)
  providerCalls : Nat
  authCalls : Nat
  expiryChecks : Nat
  reconnects : Nat

/-- Concatenation of the traces of two consecutive loop iterations. -/
def Trace.append (t u : Trace) : Trace :=
  { dispatchCalls := t.dispatchCalls ++ u.dispatchCalls,
    providerCalls := t.providerCalls + u.providerCalls,
    authCalls := t.authCalls + u.authCalls,
    expiryChecks := t.expiryChecks + u.expiryChecks,
    reconnects := t.reconnects + u.reconnects }

/-- One iteration of the retry loop of the `CallToolRequestSchema` handler
(`src/index.ts` lines 253-269): dispatch; on success return the
serialized result; on failure, only on the first attempt and only for an
expiry-classified error, reconnect and continue (or, if reconnect fails,
return the normalization of the original error); otherwise return the
normalized error.  `none` is the `continue`. -/
def loopIter (beh : Behavior) (name : String) (args : JsValue)
    (attempt : Nat) : Option Response × Trace :=
  match dispatchTool beh name args attempt with
  | Except.ok result =>
      (some (serializeResult result),
       { dispatchCalls := [(name, args)],
         providerCalls := providerCallsOf name,
         authCalls := 0, expiryChecks := 0, reconnects := 0 })
  | Except.error e =>
      if attempt = 0 then
        if isSessionExpired e then
          match reconnect beh with
          | Except.ok _ =>
              (none,
               { dispatchCalls := [(name, args)],
                 providerCalls := providerCallsOf name,
                 authCalls := 0, expiryChecks := 1, reconnects := 1 })
          | Except.error _reconnectError =>
              (some (handleError e),
               { dispatchCalls := [(name, args)],
                 providerCalls := providerCallsOf name,
                 authCalls := 0, expiryChecks := 1, reconnects := 1 })
        else
          (some (handleError e),
           { dispatchCalls := [(name, args)],
             providerCalls := providerCallsOf name,
             authCalls := 0, expiryChecks := 1, reconnects := 0 })
      else
        (some (handleError e),
         { dispatchCalls := [(name, args)],
           providerCalls := providerCallsOf name,
           authCalls := 0, expiryChecks := 0, reconnects := 0 })

/-- The retry loop `for (let attempt = 0; attempt < 2; attempt++)` of the
handler: run iteration 0; if it returned, that is the response; if it
performed `continue`, run iteration 1; `none` here means the loop was
exhausted without returning. -/
def callLoop (beh : Behavior) (name : String) (args : JsValue) :
    Option Response × Trace :=
  let first := loopIter beh name args 0
  match first.1 with
  | some r => (some r, first.2)
  | none =>
      let second := loopIter beh name args 1
      (second.1, Trace.append first.2 second.2)

/-- The trace of the session-management fast path: one auth-handler
invocation, nothing else. -/
def authTrace : Trace :=
  { dispatchCalls := [], providerCalls := 0, authCalls := 1,
    expiryChecks := 0, reconnects := 0 }

/-- The `CallToolRequestSchema` handler (`src/index.ts` lines 237-272):
session-management names are dispatched directly to the auth handler
inside a plain try/catch; every other name goes through the retry loop,
with the `'Unexpected retry exhaustion'` fallback after the loop. -/
def callOperation (beh : Behavior) (name : String) (args : JsValue) :
    Response × Trace :=
  if AUTH_TOOLS.contains name then
    (match beh.authOutcome with
     | Except.ok result => serializeResult result
     | Except.error e => handleError e,
     authTrace)
  else
    match callLoop beh name args with
    | (some r, t) => (r, t)
    | (none, t) =>
        (handleError (Thrown.err "Unexpected retry exhaustion" false), t)

/-- An operation descriptor as returned by a handler's `getTools()`:
name, description and input schema. -/
structure ToolDescriptor where
  name : String
  description : String
  inputSchema : JsValue

/-- The synthetic `healthcheck` descriptor appended by the
`ListToolsRequestSchema` handler (`src/index.ts` lines 225-232). -/
def healthcheckDescriptor : ToolDescriptor :=
  { name := "healthcheck",
    description := "Check server health and connectivity",
    inputSchema :=
      JsValue.obj
        [("type", JsValue.str "object"), ("properties", JsValue.obj [])] }

/-- The registry assembly of the `ListToolsRequestSchema` handler
(`src/index.ts` lines 197-235): the providers' descriptor lists are
concatenated in the fixed provider order and the `healthcheck` descriptor
is appended.  No validation of any kind is performed. -/
def assembleRegistry (providerToolLists : List (List ToolDescriptor)) :
    List ToolDescriptor :=
  providerToolLists.flatten ++ [healthcheckDescriptor]

theorem stringifyPlain_str (s : String) :
    stringifyPlain (JsValue.str s) = some (jsonQuote s) := by
  simp [stringifyPlain]

mutual

theorem stringify_mapTree_isSome (v : JsValue) :
    (stringifyPlain (mapTree jsReplacer v)).isSome = true := by
  match v with
  | JsValue.null => simp [mapTree, jsReplacer, stringifyPlain]
  | JsValue.bool b => simp [mapTree, jsReplacer, stringifyPlain]
  | JsValue.num n => simp [mapTree, jsReplacer, stringifyPlain]
  | JsValue.str s => simp [mapTree, jsReplacer, stringifyPlain]
  | JsValue.bigint n => simp [mapTree, jsReplacer, stringifyPlain]
  | JsValue.arr xs =>
      have h := stringify_mapTreeList_isSome xs
      simp only [mapTree, jsReplacer, stringifyPlain]
      cases hh : stringifyElems (mapTreeList jsReplacer xs) with
      | none => rw [hh] at h; simp at h
      | some ss => simp [hh]
  | JsValue.obj fs =>
      have h := stringify_mapTreeFields_isSome fs
      simp only [mapTree, jsReplacer, stringifyPlain]
      cases hh : stringifyFieldList (mapTreeFields jsReplacer fs) with
      | none => rw [hh] at h; simp at h
      | some ss => simp [hh]

theorem stringify_mapTreeList_isSome (xs : List JsValue) :
    (stringifyElems (mapTreeList jsReplacer xs)).isSome = true := by
  match xs with
  | [] => simp [mapTreeList, stringifyElems]
  | x :: rest =>
      have h1 := stringify_mapTree_isSome x
      have h2 := stringify_mapTreeList_isSome rest
      simp only [mapTreeList, stringifyElems]
      cases hh1 : stringifyPlain (mapTree jsReplacer x) with
      | none => rw [hh1] at h1; simp at h1
      | some s =>
          cases hh2 : stringifyElems (mapTreeList jsReplacer rest) with
          | none => rw [hh2] at h2; simp at h2
          | some ss => simp [hh1, hh2]

theorem stringify_mapTreeFields_isSome (fs : List (String × JsValue)) :
    (stringifyFieldList (mapTreeFields jsReplacer fs)).isSome = true := by
  match fs with
  | [] => simp [mapTreeFields, stringifyFieldList]
  | (k, v) :: rest =>
      have h1 := stringify_mapTree_isSome v
      have h2 := stringify_mapTreeFields_isSome rest
      simp only [mapTreeFields, stringifyFieldList]
      cases hh1 : stringifyPlain (mapTree jsReplacer v) with
      | none => rw [hh1] at h1; simp at h1
      | some s =>
          cases hh2 : stringifyFieldList (mapTreeFields jsReplacer rest) with
          | none => rw [hh2] at h2; simp at h2
          | some ss => simp [hh1, hh2]

end

theorem mapTreeFields_mem (rep : JsValue → JsValue) (k : String)
    (v : JsValue) (fs : List (String × JsValue)) (h : (k, v) ∈ fs) :
    (k, mapTree rep v) ∈ mapTreeFields rep fs := by
  induction fs with
  | nil => cases h
  | cons hd tl ih =>
      cases hd with
      | mk k2 v2 =>
          rcases List.mem_cons.mp h with heq | hmem
          · cases heq
            exact List.Mem.head _
          · exact List.Mem.tail _ (ih hmem)

theorem stringifyFieldList_mem (fs : List (String × JsValue))
    (ss : List String) (k : String) (v : JsValue) (s : String)
    (hss : stringifyFieldList fs = some ss) (hmem : (k, v) ∈ fs)
    (hv : stringifyPlain v = some s) :
    (jsonQuote k ++ ":" ++ s) ∈ ss := by
  induction fs generalizing ss with
  | nil => cases hmem
  | cons hd tl ih =>
      cases hd with
      | mk k2 v2 =>
          rw [stringifyFieldList] at hss
          cases h2 : stringifyPlain v2 with
          | none => rw [h2] at hss; cases hss
          | some s2 =>
              cases h3 : stringifyFieldList tl with
              | none => rw [h2, h3] at hss; cases hss
              | some ss2 =>
                  rw [h2, h3] at hss
                  rcases List.mem_cons.mp hmem with heq | hmm
                  · cases heq
                    rw [hv] at h2
                    cases h2
                    cases hss
                    exact List.Mem.head _
                  · cases hss
                    exact List.Mem.tail _ (ih ss2 h3 hmm)

theorem joinSep_mem (sep a : String) (l : List String) (h : a ∈ l) :
    ∃ p q, joinSep sep l = p ++ a ++ q := by
  induction l with
  | nil => cases h
  | cons hd tl ih =>
      rcases List.mem_cons.mp h with heq | hmem
      · subst heq
        cases tl with
        | nil =>
            refine ⟨"", "", ?_⟩
            simp [joinSep, String.empty_append, String.append_empty]
        | cons b bs =>
            refine ⟨"", sep ++ joinSep sep (b :: bs), ?_⟩
            simp [joinSep, String.empty_append, String.append_assoc]
      · cases tl with
        | nil => cases hmem
        | cons b bs =>
            obtain ⟨p, q, hpq⟩ := ih hmem
            refine ⟨hd ++ sep ++ p, q, ?_⟩
            simp [joinSep, hpq, String.append_assoc]

theorem trace_append_dispatchCalls (t u : Trace) :
    (Trace.append t u).dispatchCalls = t.dispatchCalls ++ u.dispatchCalls := rfl

theorem trace_append_providerCalls (t u : Trace) :
    (Trace.append t u).providerCalls = t.providerCalls + u.providerCalls := rfl

theorem trace_append_reconnects (t u : Trace) :
    (Trace.append t u).reconnects = t.reconnects + u.reconnects := rfl

theorem loopIter_ok (beh : Behavior) (name : String) (args : JsValue)
    (attempt : Nat) (v : JsValue)
    (h : dispatchTool beh name args attempt = Except.ok v) :
    loopIter beh name args attempt =
      (some (serializeResult v),
       { dispatchCalls := [(name, args)],
         providerCalls := providerCallsOf name,
         authCalls := 0, expiryChecks := 0, reconnects := 0 }) := by
  simp [loopIter, h]

theorem loopIter_zero_expired_reconnect_ok (beh : Behavior) (name : String)
    (args : JsValue) (e : Thrown)
    (h : dispatchTool beh name args 0 = Except.error e)
    (hexp : isSessionExpired e = true)
    (hrec : reconnect beh = Except.ok ()) :
    loopIter beh name args 0 =
      (none,
       { dispatchCalls := [(name, args)],
         providerCalls := providerCallsOf name,
         authCalls := 0, expiryChecks := 1, reconnects := 1 }) := by
  simp [loopIter, h, hexp, hrec]

theorem loopIter_zero_expired_reconnect_fail (beh : Behavior)
    (name : String) (args : JsValue) (e eR : Thrown)
    (h : dispatchTool beh name args 0 = Except.error e)
    (hexp : isSessionExpired e = true)
    (hrec : reconnect beh = Except.error eR) :
    loopIter beh name args 0 =
      (some (handleError e),
       { dispatchCalls := [(name, args)],
         providerCalls := providerCallsOf name,
         authCalls := 0, expiryChecks := 1, reconnects := 1 }) := by
  simp [loopIter, h, hexp, hrec]

theorem loopIter_zero_not_expired (beh : Behavior) (name : String)
    (args : JsValue) (e : Thrown)
    (h : dispatchTool beh name args 0 = Except.error e)
    (hexp : isSessionExpired e = false) :
    loopIter beh name args 0 =
      (some (handleError e),
       { dispatchCalls := [(name, args)],
         providerCalls := providerCallsOf name,
         authCalls := 0, expiryChecks := 1, reconnects := 0 }) := by
  simp [loopIter, h, hexp]

theorem loopIter_one_error (beh : Behavior) (name : String)
    (args : JsValue) (e : Thrown)
    (h : dispatchTool beh name args 1 = Except.error e) :
    loopIter beh name args 1 =
      (some (handleError e),
       { dispatchCalls := [(name, args)],
         providerCalls := providerCallsOf name,
         authCalls := 0, expiryChecks := 0, reconnects := 0 }) := by
  simp [loopIter, h]

theorem loopIter_one_isSome (beh : Behavior) (name : String)
    (args : JsValue) : ((loopIter beh name args 1).1).isSome = true := by
  cases h : dispatchTool beh name args 1 with
  | ok v => rw [loopIter_ok beh name args 1 v h]; rfl
  | error e => rw [loopIter_one_error beh name args e h]; rfl

theorem loopIter_dispatchCalls (beh : Behavior) (name : String)
    (args : JsValue) (attempt : Nat) :
    (loopIter beh name args attempt).2.dispatchCalls = [(name, args)] := by
  unfold loopIter
  cases dispatchTool beh name args attempt with
  | ok v => rfl
  | error e =>
      dsimp only
      split
      · split
        · cases reconnect beh with
          | ok u => rfl
          | error eR => rfl
        · rfl
      · rfl

theorem callOperation_general (beh : Behavior) (name : String)
    (args : JsValue) (hauth : AUTH_TOOLS.contains name = false) :
    callOperation beh name args =
      match callLoop beh name args with
      | (some r, t) => (r, t)
      | (none, t) =>
          (handleError (Thrown.err "Unexpected retry exhaustion" false), t) := by
  simp only [callOperation, hauth, Bool.false_eq_true, if_false]

theorem callLoop_cases (beh : Behavior) (name : String) (args : JsValue) :
    callLoop beh name args =
      match (loopIter beh name args 0).1 with
      | some r => (some r, (loopIter beh name args 0).2)
      | none =>
          ((loopIter beh name args 1).1,
           Trace.append (loopIter beh name args 0).2
             (loopIter beh name args 1).2) := rfl

theorem callOperation_dispatch_le_two (beh : Behavior) (name : String)
    (args : JsValue) :
    (callOperation beh name args).2.dispatchCalls.length ≤ 2 := by
  have h0 := loopIter_dispatchCalls beh name args 0
  have h1 := loopIter_dispatchCalls beh name args 1
  cases hauth : AUTH_TOOLS.contains name with
  | true =>
      simp only [callOperation, hauth, if_true]
      simp [authTrace]
  | false =>
      rw [callOperation_general beh name args hauth, callLoop_cases]
      cases hfst : (loopIter beh name args 0).1 with
      | some r =>
          dsimp only
          rw [h0]
          simp
      | none =>
          dsimp only
          cases hsnd : (loopIter beh name args 1).1 with
          | some r =>
              dsimp only
              rw [trace_append_dispatchCalls, h0, h1]
              simp
          | none =>
              dsimp only
              rw [trace_append_dispatchCalls, h0, h1]
              simp

/-- A behavior in which the provider fails its first invocation with a
plain `Error` whose message matches the expiry predicate, succeeds on the
second invocation, and the reconnect sequence succeeds. -/
def behRetryOk : Behavior :=
  { providerOutcome := fun _ _ attempt =>
      if attempt = 0 then
        Except.error (Thrown.err "Session timed out" false)
      else Except.ok (JsValue.str "done"),
    authOutcome := Except.ok (JsValue.str "authenticated"),
    dropOutcome := Except.ok (),
    loginOutcome := Except.ok (),
    timestamp := "2026-10-11T00:00:00.000Z" }

/-- A behavior in which the provider fails with an expiry-classified plain
`Error` and the reconnect sequence itself fails at `login()`. -/
def behReconnectFail : Behavior :=
  { providerOutcome := fun _ _ _ =>
      Except.error (Thrown.err "Session timed out" false),
    authOutcome := Except.ok (JsValue.str "authenticated"),
    dropOutcome := Except.ok (),
    loginOutcome := Except.error (Thrown.err "login refused" false),
    timestamp := "2026-10-11T00:00:00.000Z" }

/-- A behavior in which the provider fails with a structured `McpError`
that is not expiry-classified. -/
def behMcpFail : Behavior :=
  { providerOutcome := fun _ _ _ =>
      Except.error (Thrown.mcp (-32000) "backend failure" false),
    authOutcome := Except.ok (JsValue.str "authenticated"),
    dropOutcome := Except.ok (),
    loginOutcome := Except.ok (),
    timestamp := "2026-10-11T00:00:00.000Z" }

/-- A behavior in which the provider fails with a plain business `Error`
that is not expiry-classified. -/
def behBusinessFail : Behavior :=
  { providerOutcome := fun _ _ _ =>
      Except.error (Thrown.err "database error" false),
    authOutcome := Except.ok (JsValue.str "authenticated"),
    dropOutcome := Except.ok (),
    loginOutcome := Except.ok (),
    timestamp := "2026-10-11T00:00:00.000Z" }

/-- A behavior in which the provider throws a non-`Error` value (a plain
string mentioning a session timeout) that the CSRF classifier rejects. -/
def behRawThrow : Behavior :=
  { providerOutcome := fun _ _ _ =>
      Except.error (Thrown.raw "session timed out" false),
    authOutcome := Except.ok (JsValue.str "authenticated"),
    dropOutcome := Except.ok (),
    loginOutcome := Except.ok (),
    timestamp := "2026-10-11T00:00:00.000Z" }

/-- A behavior in which the auth handler fails with an `Error` whose
message matches the expiry predicate. -/
def behAuthExpiry : Behavior :=
  { providerOutcome := fun _ _ _ => Except.ok (JsValue.str "unused"),
    authOutcome := Except.error (Thrown.err "Session timed out" false),
    dropOutcome := Except.ok (),
    loginOutcome := Except.ok (),
    timestamp := "2026-10-11T00:00:00.000Z" }

/-- C1: for every operation name outside the session-management set, if
the first dispatch fails with an expiry-classified failure and the
reconnect sequence succeeds, then exactly one reconnect and exactly one
re-dispatch with the same name and arguments are performed, the returned
envelope is that of the second dispatch's outcome (success or failure)
as-is, and in every execution the total number of dispatch attempts for
one call is at most 2. -/
theorem c1_expiry_retry :
    (∀ (beh : Behavior) (name : String) (args : JsValue) (e0 : Thrown),
       AUTH_TOOLS.contains name = false →
       dispatchTool beh name args 0 = Except.error e0 →
       isSessionExpired e0 = true →
       reconnect beh = Except.ok () →
       (callOperation beh name args).2.reconnects = 1 ∧
       (callOperation beh name args).2.dispatchCalls =
         [(name, args), (name, args)] ∧
       (callOperation beh name args).1 =
         (match dispatchTool beh name args 1 with
          | Except.ok v => serializeResult v
          | Except.error e => handleError e)) ∧
    (∀ (beh : Behavior) (name : String) (args : JsValue),
       (callOperation beh name args).2.dispatchCalls.length ≤ 2) := by
  constructor
  · intro beh name args e0 hauth h0 hexp hrec
    have hiter0 :=
      loopIter_zero_expired_reconnect_ok beh name args e0 h0 hexp hrec
    rw [callOperation_general beh name args hauth, callLoop_cases, hiter0]
    cases h1 : dispatchTool beh name args 1 with
    | ok v =>
        rw [loopIter_ok beh name args 1 v h1]
        exact ⟨rfl, rfl, rfl⟩
    | error e =>
        rw [loopIter_one_error beh name args e h1]
        exact ⟨rfl, rfl, rfl⟩
  · exact callOperation_dispatch_le_two

/-- Witness for C1: the `lock` operation under a provider that times out
once and then succeeds; one reconnect, one retry, second outcome
returned. -/
theorem c1_expiry_retry_witness :
    (callOperation behRetryOk "lock" JsValue.null).2.reconnects = 1 ∧
    (callOperation behRetryOk "lock" JsValue.null).2.dispatchCalls =
      [("lock", JsValue.null), ("lock", JsValue.null)] ∧
    (callOperation behRetryOk "lock" JsValue.null).1 =
      (match dispatchTool behRetryOk "lock" JsValue.null 1 with
       | Except.ok v => serializeResult v
       | Except.error e => handleError e) :=
  c1_expiry_retry.1 behRetryOk "lock" JsValue.null
    (Thrown.err "Session timed out" false) (by decide) rfl (by decide) rfl

/-- C2 counterexample: the original failure is a plain (non-`McpError`)
expiry-classified `Error` with message `'Session timed out'` and
reconnect fails; the returned envelope's message is the generic
`'Internal server error'`, not the original failure's message, refuting
the claim that the envelope's error message equals the original
failure's message. -/
theorem c2_counterexample :
    (callOperation behReconnectFail "lock" JsValue.null).1 =
      Response.errorResp "Internal server error" ErrorCode.internalError ∧
    ("Internal server error" : String) ≠ "Session timed out" :=
  ⟨rfl, by decide⟩

/-- C2 (amended): when the first dispatch fails with an expiry-classified
failure and the reconnect sequence itself fails, the returned envelope is
the normalization (`handleError`) of the original dispatch failure — it
does not depend on the reconnect failure at all — and no re-dispatch
happens; the normalized message equals the original failure's message
exactly when the original failure is a structured `McpError`, while a
plain `Error` is flattened to the generic internal-error envelope. -/
theorem c2_reconnect_failure_original_error (beh : Behavior)
    (name : String) (args : JsValue) (e0 eR : Thrown)
    (code : Int) (message : String) (csrf : Bool)
    (hauth : AUTH_TOOLS.contains name = false)
    (h0 : dispatchTool beh name args 0 = Except.error e0)
    (hexp : isSessionExpired e0 = true)
    (hrec : reconnect beh = Except.error eR) :
    (callOperation beh name args).1 = handleError e0 ∧
    (callOperation beh name args).2.reconnects = 1 ∧
    (callOperation beh name args).2.dispatchCalls = [(name, args)] ∧
    handleError (Thrown.mcp code message csrf) =
      Response.errorResp message code ∧
    handleError (Thrown.err message csrf) =
      Response.errorResp "Internal server error" ErrorCode.internalError := by
  have hiter :=
    loopIter_zero_expired_reconnect_fail beh name args e0 eR h0 hexp hrec
  rw [callOperation_general beh name args hauth, callLoop_cases, hiter]
  exact ⟨rfl, rfl, rfl, rfl, rfl⟩

/-- Witness for the amended C2: `lock` under an expired session whose
reconnect login is refused; the envelope is the normalization of the
original timeout error. -/
theorem c2_reconnect_failure_original_error_witness :
    (callOperation behReconnectFail "lock" JsValue.null).1 =
      handleError (Thrown.err "Session timed out" false) ∧
    (callOperation behReconnectFail "lock" JsValue.null).2.reconnects = 1 ∧
    (callOperation behReconnectFail "lock" JsValue.null).2.dispatchCalls =
      [("lock", JsValue.null)] ∧
    handleError (Thrown.mcp (-32000) "backend failure" false) =
      Response.errorResp "backend failure" (-32000) ∧
    handleError (Thrown.err "backend failure" false) =
      Response.errorResp "Internal server error" ErrorCode.internalError :=
  c2_reconnect_failure_original_error behReconnectFail "lock" JsValue.null
    (Thrown.err "Session timed out" false)
    (Thrown.err "login refused" false) (-32000) "backend failure" false
    (by decide) rfl (by decide) rfl

/-- C3: the session-expiry predicate is true iff the dedicated classifier
recognizes a CSRF error, or the failure is an `Error` whose lower-cased
message contains `'session timed out'` or `'csrf token'`; and every
failure for which the predicate is false is propagated immediately, with
no retry and no reconnect. -/
theorem c3_expiry_predicate :
    (∀ e : Thrown,
       isSessionExpired e = true ↔
         (isCsrfError e = true ∨
          ∃ message,
            errMessage e = some message ∧ sessionMsgHit message = true)) ∧
    (∀ (beh : Behavior) (name : String) (args : JsValue) (e0 : Thrown),
       AUTH_TOOLS.contains name = false →
       dispatchTool beh name args 0 = Except.error e0 →
       isSessionExpired e0 = false →
       (callOperation beh name args).1 = handleError e0 ∧
       (callOperation beh name args).2.reconnects = 0 ∧
       (callOperation beh name args).2.dispatchCalls = [(name, args)]) := by
  constructor
  · intro e
    cases e with
    | mcp code message csrf =>
        cases csrf <;> simp [isSessionExpired, isCsrfError, errMessage]
    | err message csrf =>
        cases csrf <;> simp [isSessionExpired, isCsrfError, errMessage]
    | raw stringForm csrf =>
        cases csrf <;> simp [isSessionExpired, isCsrfError, errMessage]
  · intro beh name args e0 hauth h0 hexp
    have hiter := loopIter_zero_not_expired beh name args e0 h0 hexp
    rw [callOperation_general beh name args hauth, callLoop_cases, hiter]
    exact ⟨rfl, rfl, rfl⟩

/-- Witness for C3: a structured provider failure that is not
expiry-classified is propagated at once, with no reconnect and a single
dispatch. -/
theorem c3_expiry_predicate_witness :
    (callOperation behMcpFail "lock" JsValue.null).1 =
      handleError (Thrown.mcp (-32000) "backend failure" false) ∧
    (callOperation behMcpFail "lock" JsValue.null).2.reconnects = 0 ∧
    (callOperation behMcpFail "lock" JsValue.null).2.dispatchCalls =
      [("lock", JsValue.null)] :=
  c3_expiry_predicate.2 behMcpFail "lock" JsValue.null
    (Thrown.mcp (-32000) "backend failure" false) (by decide) rfl (by decide)

/-- C6 counterexample: the unknown operation name `'csrf token'` is not in
the registry, yet its synthesized `'Unknown tool: csrf token'` failure
matches the expiry predicate, so the call does trigger a reconnect and a
second dispatch — refuting "never retried and never triggers a
reconnect" — even though the final envelope still carries the
method-not-found code and name and no provider is ever invoked. -/
theorem c6_counterexample :
    (callOperation behRetryOk "csrf token" JsValue.null).2.reconnects = 1 ∧
    (callOperation behRetryOk "csrf token" JsValue.null).2.dispatchCalls.length = 2 ∧
    (callOperation behRetryOk "csrf token" JsValue.null).1 =
      Response.errorResp "Unknown tool: csrf token" ErrorCode.methodNotFound ∧
    (callOperation behRetryOk "csrf token" JsValue.null).2.providerCalls = 0 :=
  ⟨rfl, rfl, rfl, rfl⟩

/-- C6 (amended): for every operation name absent from the dispatch
table, the call returns the method-not-found envelope carrying the
offending name and no provider execute entry point is invoked; moreover,
provided the synthesized `'Unknown tool: ...'` failure does not itself
satisfy the expiry predicate (which a pathological name containing
`'csrf token'` or `'session timed out'` would), the failure is not
retried and triggers no reconnect. -/
theorem c6_unknown_tool (beh : Behavior) (name : String) (args : JsValue)
    (hauth : AUTH_TOOLS.contains name = false)
    (hprov : providerToolNames.contains name = false)
    (hhc : name ≠ "healthcheck")
    (hexpU : isSessionExpired
        (Thrown.mcp ErrorCode.methodNotFound
          ("Unknown tool: " ++ name) false) = false) :
    (callOperation beh name args).1 =
      Response.errorResp ("Unknown tool: " ++ name)
        ErrorCode.methodNotFound ∧
    (callOperation beh name args).2.providerCalls = 0 ∧
    (callOperation beh name args).2.reconnects = 0 ∧
    (callOperation beh name args).2.dispatchCalls = [(name, args)] := by
  have hdis : dispatchTool beh name args 0 =
      Except.error
        (Thrown.mcp ErrorCode.methodNotFound
          ("Unknown tool: " ++ name) false) := by
    simp only [dispatchTool, hprov, Bool.false_eq_true, if_false, if_neg hhc]
  have hiter := loopIter_zero_not_expired beh name args _ hdis hexpU
  rw [callOperation_general beh name args hauth, callLoop_cases, hiter]
  refine ⟨rfl, ?_, rfl, rfl⟩
  dsimp only
  simp only [providerCallsOf, hprov, Bool.false_eq_true, if_false]

/-- Witness for the amended C6: calling `notARealOperation` yields the
method-not-found envelope with no provider call, no reconnect and a
single dispatch. -/
theorem c6_unknown_tool_witness :
    (callOperation behBusinessFail "notARealOperation" JsValue.null).1 =
      Response.errorResp ("Unknown tool: " ++ "notARealOperation")
        ErrorCode.methodNotFound ∧
    (callOperation behBusinessFail "notARealOperation" JsValue.null).2.providerCalls = 0 ∧
    (callOperation behBusinessFail "notARealOperation" JsValue.null).2.reconnects = 0 ∧
    (callOperation behBusinessFail "notARealOperation" JsValue.null).2.dispatchCalls =
      [("notARealOperation", JsValue.null)] :=
  c6_unknown_tool behBusinessFail "notARealOperation" JsValue.null
    (by decide) (by decide) (by decide) (by decide)

/-- C7: session-management operation names are dispatched directly to the
auth handler and never pass through the resilience controller: no
dispatch-table call, no provider call, no expiry-predicate evaluation, no
reconnect and no retry occur — whatever the auth outcome is, even an
error matching the expiry predicate — and the envelope is the serialized
result or the normalized error of that single auth invocation. -/
theorem c7_auth_bypass (beh : Behavior) (name : String) (args : JsValue)
    (hauth : AUTH_TOOLS.contains name = true) :
    (callOperation beh name args).1 =
      (match beh.authOutcome with
       | Except.ok result => serializeResult result
       | Except.error e => handleError e) ∧
    (callOperation beh name args).2.authCalls = 1 ∧
    (callOperation beh name args).2.dispatchCalls = [] ∧
    (callOperation beh name args).2.providerCalls = 0 ∧
    (callOperation beh name args).2.expiryChecks = 0 ∧
    (callOperation beh name args).2.reconnects = 0 := by
  simp only [callOperation, hauth, if_true]
  simp [authTrace]

/-- Witness for C7: `login` with an auth failure whose message matches
the expiry predicate still bypasses the retry machinery entirely. -/
theorem c7_auth_bypass_witness :
    (callOperation behAuthExpiry "login" JsValue.null).1 =
      (match behAuthExpiry.authOutcome with
       | Except.ok result => serializeResult result
       | Except.error e => handleError e) ∧
    (callOperation behAuthExpiry "login" JsValue.null).2.authCalls = 1 ∧
    (callOperation behAuthExpiry "login" JsValue.null).2.dispatchCalls = [] ∧
    (callOperation behAuthExpiry "login" JsValue.null).2.providerCalls = 0 ∧
    (callOperation behAuthExpiry "login" JsValue.null).2.expiryChecks = 0 ∧
    (callOperation behAuthExpiry "login" JsValue.null).2.reconnects = 0 :=
  c7_auth_bypass behAuthExpiry "login" JsValue.null (by decide)

/-- C8 counterexample: a provider failure that is a plain `Error` with
message `'database error'` (not expiry-classified) is not surfaced
"unchanged": the envelope carries the generic `'Internal server error'`
message, not the failure's own message — refuting the claim that the
envelope carries that failure's own message and code. -/
theorem c8_counterexample :
    (callOperation behBusinessFail "lock" JsValue.null).1 =
      Response.errorResp "Internal server error" ErrorCode.internalError ∧
    ("Internal server error" : String) ≠ "database error" :=
  ⟨rfl, by decide⟩

/-- C8 (amended): every provider failure that does not satisfy the
session-expiry predicate is propagated immediately — never retried, never
causing a reconnect — as the normalization (`handleError`) of that
failure: a structured `McpError`'s own message and code pass through
unchanged, while any other failure is flattened to the generic
internal-error envelope. -/
theorem c8_business_error (beh : Behavior) (name : String)
    (args : JsValue) (e0 : Thrown) (code : Int) (message : String)
    (csrf : Bool)
    (hauth : AUTH_TOOLS.contains name = false)
    (h0 : dispatchTool beh name args 0 = Except.error e0)
    (hexp : isSessionExpired e0 = false) :
    (callOperation beh name args).1 = handleError e0 ∧
    (callOperation beh name args).2.reconnects = 0 ∧
    (callOperation beh name args).2.dispatchCalls = [(name, args)] ∧
    handleError (Thrown.mcp code message csrf) =
      Response.errorResp message code ∧
    handleError (Thrown.err message csrf) =
      Response.errorResp "Internal server error" ErrorCode.internalError := by
  have hiter := loopIter_zero_not_expired beh name args e0 h0 hexp
  rw [callOperation_general beh name args hauth, callLoop_cases, hiter]
  exact ⟨rfl, rfl, rfl, rfl, rfl⟩

/-- Witness for the amended C8: the `'database error'` provider failure
is normalized once, with no reconnect and a single dispatch. -/
theorem c8_business_error_witness :
    (callOperation behBusinessFail "lock" JsValue.null).1 =
      handleError (Thrown.err "database error" false) ∧
    (callOperation behBusinessFail "lock" JsValue.null).2.reconnects = 0 ∧
    (callOperation behBusinessFail "lock" JsValue.null).2.dispatchCalls =
      [("lock", JsValue.null)] ∧
    handleError (Thrown.mcp (-32000) "database error" false) =
      Response.errorResp "database error" (-32000) ∧
    handleError (Thrown.err "database error" false) =
      Response.errorResp "Internal server error" ErrorCode.internalError :=
  c8_business_error behBusinessFail "lock" JsValue.null
    (Thrown.err "database error" false) (-32000) "database error" false
    (by decide) rfl (by decide)

/-- C9: a thrown non-`Error` value the CSRF classifier rejects — such as
a thrown plain string mentioning a session timeout — never satisfies the
expiry predicate, so the call is not retried; `handleError` coerces it to
an error whose message is its string form and normalizes it to the
generic internal-error envelope. -/
theorem c9_raw_thrown_value (s : String) (beh : Behavior)
    (name : String) (args : JsValue)
    (hauth : AUTH_TOOLS.contains name = false)
    (h0 : dispatchTool beh name args 0 =
      Except.error (Thrown.raw s false)) :
    isSessionExpired (Thrown.raw s false) = false ∧
    coerceToError (Thrown.raw s false) = Thrown.err s false ∧
    handleError (Thrown.raw s false) =
      Response.errorResp "Internal server error" ErrorCode.internalError ∧
    (callOperation beh name args).1 =
      Response.errorResp "Internal server error" ErrorCode.internalError ∧
    (callOperation beh name args).2.reconnects = 0 ∧
    (callOperation beh name args).2.dispatchCalls = [(name, args)] := by
  have hexp : isSessionExpired (Thrown.raw s false) = false := rfl
  have hiter := loopIter_zero_not_expired beh name args _ h0 hexp
  rw [callOperation_general beh name args hauth, callLoop_cases, hiter]
  exact ⟨rfl, rfl, rfl, rfl, rfl, rfl⟩

/-- Witness for C9: a provider throwing the plain string
`'session timed out'` (not an `Error`) is not retried and yields the
generic internal-error envelope. -/
theorem c9_raw_thrown_value_witness :
    isSessionExpired (Thrown.raw "session timed out" false) = false ∧
    coerceToError (Thrown.raw "session timed out" false) =
      Thrown.err "session timed out" false ∧
    handleError (Thrown.raw "session timed out" false) =
      Response.errorResp "Internal server error" ErrorCode.internalError ∧
    (callOperation behRawThrow "lock" JsValue.null).1 =
      Response.errorResp "Internal server error" ErrorCode.internalError ∧
    (callOperation behRawThrow "lock" JsValue.null).2.reconnects = 0 ∧
    (callOperation behRawThrow "lock" JsValue.null).2.dispatchCalls =
      [("lock", JsValue.null)] :=
  c9_raw_thrown_value "session timed out" behRawThrow "lock" JsValue.null
    (by decide) rfl

/-- C10: the `'Unexpected retry exhaustion'` fallback after the retry
loop is unreachable: the loop itself always returns a response — on
iteration 0 every path returns or continues, and on iteration 1 every
path returns — so `callLoop` always yields `some` response for every
behavior, name and arguments. -/
theorem c10_fallback_unreachable (beh : Behavior) (name : String)
    (args : JsValue) : ((callLoop beh name args).1).isSome = true := by
  rw [callLoop_cases]
  cases hfst : (loopIter beh name args 0).1 with
  | some r => rfl
  | none =>
      dsimp only
      exact loopIter_one_isSome beh name args

/-- C4: for every result object with a field holding a 64-bit-integer
(bigint) value, the encoder produces a success envelope whose JSON text
contains that value as a quoted decimal string — the conversion being the
uniform `jsReplacer` value-transform hook applied during serialization —
and encoding never fails for any value. -/
theorem c4_bigint_serialization :
    (∀ (fs : List (String × JsValue)) (k : String) (n : Int),
       (k, JsValue.bigint n) ∈ fs →
       ∃ pre post,
         serializeResult (JsValue.obj fs) =
           Response.ok (pre ++ jsonQuote (toString n) ++ post)) ∧
    (∀ v : JsValue, ∃ text, serializeResult v = Response.ok text) := by
  constructor
  · intro fs k n hmem
    obtain ⟨ss, hss⟩ :=
      Option.isSome_iff_exists.mp (stringify_mapTreeFields_isSome fs)
    have hm2 : (k, JsValue.str (toString n)) ∈ mapTreeFields jsReplacer fs := by
      have h := mapTreeFields_mem jsReplacer k (JsValue.bigint n) fs hmem
      simpa [mapTree, jsReplacer] using h
    have hin : (jsonQuote k ++ ":" ++ jsonQuote (toString n)) ∈ ss :=
      stringifyFieldList_mem _ ss k (JsValue.str (toString n)) _ hss hm2
        (stringifyPlain_str (toString n))
    obtain ⟨p, q, hpq⟩ := joinSep_mem "," _ ss hin
    refine ⟨"\x7b" ++ p ++ (jsonQuote k ++ ":"), q ++ "\x7d", ?_⟩
    have hser : jsonStringify jsReplacer (JsValue.obj fs) =
        some ("\x7b" ++ joinSep "," ss ++ "\x7d") := by
      simp only [jsonStringify, mapTree, jsReplacer]
      simp only [stringifyPlain, hss]
    simp only [serializeResult, hser]
    rw [hpq]
    simp [String.append_assoc]
  · intro v
    obtain ⟨text, ht⟩ :=
      Option.isSome_iff_exists.mp (stringify_mapTree_isSome v)
    refine ⟨text, ?_⟩
    simp only [serializeResult, jsonStringify, ht]

/-- Witness for C4: a result object with a field holding
`9007199254740993` (one above the largest representable double-precision
safe integer) encodes successfully with the value as a quoted decimal
string. -/
theorem c4_bigint_serialization_witness :
    (("value", JsValue.bigint 9007199254740993) ∈
       [("value", JsValue.bigint 9007199254740993)]) ∧
    (∃ pre post,
       serializeResult
           (JsValue.obj [("value", JsValue.bigint 9007199254740993)]) =
         Response.ok
           (pre ++ jsonQuote (toString (9007199254740993 : Int)) ++ post)) :=
  ⟨List.Mem.head _,
   c4_bigint_serialization.1 [("value", JsValue.bigint 9007199254740993)]
     "value" 9007199254740993 (List.Mem.head _)⟩

/-- A descriptor named `lock` offered by one provider. -/
def lockDescriptorA : ToolDescriptor :=
  { name := "lock", description := "Lock an object",
    inputSchema := JsValue.obj [] }

/-- A second descriptor also named `lock`, offered by another provider. -/
def lockDescriptorB : ToolDescriptor :=
  { name := "lock", description := "Lock an object (duplicate owner)",
    inputSchema := JsValue.obj [] }

/-- C5 counterexample: assembling two providers that both offer a
descriptor named `lock` does not fail — `assembleRegistry` is total and
performs no collision detection — and the assembled catalog's names are
not unique, refuting the claim that every successfully assembled registry
has unique names with collisions detected at assembly time. -/
theorem c5_counterexample :
    ¬ (((assembleRegistry [[lockDescriptorA], [lockDescriptorB]]).map
          ToolDescriptor.name).Nodup) := by
  decide

/-- C5 (amended): registry assembly performs no duplicate-name
detection: it always succeeds, returning exactly the providers'
descriptor lists concatenated in order with the `healthcheck` descriptor
appended, and any name occurring at least twice across the providers
still occurs at least twice in the assembled catalog; uniqueness holds
only if the providers' combined lists are already collision-free. -/
theorem c5_no_assembly_collision_detection
    (ls : List (List ToolDescriptor)) (n : String)
    (h : 2 ≤ (ls.flatten.map ToolDescriptor.name).count n) :
    2 ≤ ((assembleRegistry ls).map ToolDescriptor.name).count n ∧
    assembleRegistry ls = ls.flatten ++ [healthcheckDescriptor] := by
  constructor
  · rw [assembleRegistry, List.map_append, List.count_append]
    omega
  · rfl

/-- Witness for the amended C5: the duplicated `lock` descriptor survives
assembly, occurring twice in the catalog. -/
theorem c5_no_assembly_collision_detection_witness :
    (2 ≤ (([[lockDescriptorA], [lockDescriptorB]].flatten.map
        ToolDescriptor.name).count "lock")) ∧
    (2 ≤ (((assembleRegistry [[lockDescriptorA], [lockDescriptorB]]).map
          ToolDescriptor.name).count "lock") ∧
     assembleRegistry [[lockDescriptorA], [lockDescriptorB]] =
       [[lockDescriptorA], [lockDescriptorB]].flatten ++
         [healthcheckDescriptor]) :=
  ⟨by decide,
   c5_no_assembly_collision_detection [[lockDescriptorA], [lockDescriptorB]]
     "lock" (by decide)⟩
